import Mathlib

/-!
Shallow embedding of the ClaraVerse front-end components under verification:
the Settings view (src/src/components/Settings.tsx) and the widget context
menu (src/unnamed/part_001).  Records are embedded as Lean structures, the
event-driven behaviour (debounced auto-save, timer bookkeeping, click
handling) as explicit state-passing functions over those structures.
-/

namespace ClaraVerse

/-- Modelled from the spec: the record types PersonalInfo and APIConfig are
declared in the db module, which is not included in the sources; their fields
are reconstructed from every access in Settings.tsx and the spec data model.
PersonalInfo: name, email, avatar_url, timezone, theme_preference (strings;
theme_preference ranges over light, dark, system). -/
structure PersonalInfo where
  name : String
  email : String
  avatar_url : String
  timezone : String
  theme_preference : String
deriving DecidableEq

/-- Modelled from the spec: the api_type field is typed in the db module,
absent from the sources; the spec defines it as enum\x7bollama, openai\x7d and
Settings.tsx only ever assigns and compares the two literals. -/
inductive ApiType where
  | ollama
  | openai
deriving DecidableEq

/-- Modelled from the spec: APIConfig fields as used by Settings.tsx; the n8n
fields are optional (accessed with a fallback, absent from the initial state
literal), embedded as Option String. -/
structure APIConfig where
  ollama_base_url : String
  comfyui_base_url : String
  openai_api_key : String
  openai_base_url : String
  api_type : ApiType
  n8n_base_url : Option String
  n8n_api_key : Option String
deriving DecidableEq

/-- Initial personalInfo state (Settings.tsx, useState literal): empty
strings, timezone from the runtime environment (passed here as a parameter),
theme_preference system. -/
def defaultPersonalInfo (envTimezone : String) : PersonalInfo :=
  { name := ""
    email := ""
    avatar_url := ""
    timezone := envTimezone
    theme_preference := "system" }

/-- Initial apiConfig state (Settings.tsx, useState literal): ollama api_type,
empty strings, no n8n fields. -/
def defaultApiConfig : APIConfig :=
  { ollama_base_url := ""
    comfyui_base_url := ""
    openai_api_key := ""
    openai_base_url := ""
    api_type := ApiType.ollama
    n8n_base_url := none
    n8n_api_key := none }

/-- The setApiConfig call in loadSettings: spreads the saved record and
replaces openai_base_url by the OpenAI default when it is falsy (the empty
string, for a string-typed field). -/
def installApiConfig (saved : APIConfig) : APIConfig :=
  { saved with
    openai_base_url :=
      if saved.openai_base_url = "" then "https://api.openai.com/v1"
      else saved.openai_base_url }

/-- loadSettings (Settings.tsx mount effect): each record is replaced by the
saved one when present, otherwise the current (initial) state is kept; a
present APIConfig goes through the openai_base_url fallback. -/
def loadSettings (savedPersonalInfo : Option PersonalInfo)
    (savedApiConfig : Option APIConfig)
    (st : PersonalInfo × APIConfig) : PersonalInfo × APIConfig :=
  (match savedPersonalInfo with
   | some p => p
   | none => st.1,
   match savedApiConfig with
   | some a => installApiConfig a
   | none => st.2)

/-- The api_type selection buttons: each onClick spreads the previous config
and overwrites only api_type. -/
def setApiType (t : ApiType) (cfg : APIConfig) : APIConfig :=
  { cfg with api_type := t }

/-- A sequence of clicks on the api_type selection buttons. -/
def applyToggles (ts : List ApiType) (cfg : APIConfig) : APIConfig :=
  ts.foldl (fun c t => setApiType t c) cfg

/-- The two api-type-specific input groups of the Settings view. -/
inductive InputGroup where
  | ollamaGroup
  | openaiGroup
deriving DecidableEq

/-- The two conditional JSX blocks: the Ollama base-URL group is emitted when
api_type is ollama, the OpenAI base-URL plus key group when it is openai. -/
def renderedGroups (cfg : APIConfig) : List InputGroup :=
  (if cfg.api_type = ApiType.ollama then [InputGroup.ollamaGroup] else []) ++
  (if cfg.api_type = ApiType.openai then [InputGroup.openaiGroup] else [])

/-- A saved APIConfig whose openai_base_url is the empty string, as the
persistence collaborator may return. -/
def savedEmptyBase : APIConfig :=
  { ollama_base_url := "http://localhost:11434"
    comfyui_base_url := ""
    openai_api_key := "sk-1"
    openai_base_url := ""
    api_type := ApiType.openai
    n8n_base_url := none
    n8n_api_key := none }

/-- Claim C3: if getPersonalInfo returns absent on mount, the PersonalInfo
state equals the built-in default record: empty name, email and avatar_url,
the environment-derived timezone, and theme_preference system. -/
theorem c3_absent_personal_default (tz : String) (savedApi : Option APIConfig)
    (ac : APIConfig) :
    (loadSettings none savedApi (defaultPersonalInfo tz, ac)).1 =
      { name := ""
        email := ""
        avatar_url := ""
        timezone := tz
        theme_preference := "system" } := rfl

/-- Claim C4, counterexample: a present saved APIConfig with empty
openai_base_url is not installed unchanged; the installed state carries the
OpenAI default URL instead of the saved empty string. -/
theorem c4_counterexample :
    savedEmptyBase.openai_base_url = "" ∧
    (loadSettings none (some savedEmptyBase)
        (defaultPersonalInfo "UTC", defaultApiConfig)).2.openai_base_url =
      "https://api.openai.com/v1" :=
  ⟨rfl, rfl⟩

/-- Claim C4, amended: a present saved APIConfig is installed with every
field unchanged except openai_base_url, which is replaced by the OpenAI
default exactly when the saved value is the empty string. -/
theorem c4_loaded_api_install (saved : APIConfig)
    (savedP : Option PersonalInfo) (st : PersonalInfo × APIConfig) :
    (loadSettings savedP (some saved) st).2.ollama_base_url =
        saved.ollama_base_url ∧
    (loadSettings savedP (some saved) st).2.comfyui_base_url =
        saved.comfyui_base_url ∧
    (loadSettings savedP (some saved) st).2.openai_api_key =
        saved.openai_api_key ∧
    (loadSettings savedP (some saved) st).2.api_type = saved.api_type ∧
    (loadSettings savedP (some saved) st).2.n8n_base_url =
        saved.n8n_base_url ∧
    (loadSettings savedP (some saved) st).2.n8n_api_key =
        saved.n8n_api_key ∧
    (loadSettings savedP (some saved) st).2.openai_base_url =
        (if saved.openai_base_url = "" then "https://api.openai.com/v1"
         else saved.openai_base_url) :=
  ⟨rfl, rfl, rfl, rfl, rfl, rfl, rfl⟩

/-- Claim C5: any sequence of clicks on the api_type selection buttons leaves
ollama_base_url, comfyui_base_url, openai_api_key, openai_base_url,
n8n_base_url and n8n_api_key at their previous values. -/
theorem c5_toggle_frame (ts : List ApiType) (cfg : APIConfig) :
    (applyToggles ts cfg).ollama_base_url = cfg.ollama_base_url ∧
    (applyToggles ts cfg).comfyui_base_url = cfg.comfyui_base_url ∧
    (applyToggles ts cfg).openai_api_key = cfg.openai_api_key ∧
    (applyToggles ts cfg).openai_base_url = cfg.openai_base_url ∧
    (applyToggles ts cfg).n8n_base_url = cfg.n8n_base_url ∧
    (applyToggles ts cfg).n8n_api_key = cfg.n8n_api_key := by
  induction ts generalizing cfg with
  | nil => exact ⟨rfl, rfl, rfl, rfl, rfl, rfl⟩
  | cons t rest ih =>
    simpa [applyToggles, setApiType] using ih (setApiType t cfg)

/-- Claim C6: every APIConfig state renders exactly one of the two
api-type-specific input groups: the Ollama group when api_type is ollama, the
OpenAI group when api_type is openai; never both, never neither. -/
theorem c6_exactly_one_group (cfg : APIConfig) :
    (cfg.api_type = ApiType.ollama ∧
      renderedGroups cfg = [InputGroup.ollamaGroup]) ∨
    (cfg.api_type = ApiType.openai ∧
      renderedGroups cfg = [InputGroup.openaiGroup]) := by
  cases h : cfg.api_type
  · exact Or.inl ⟨rfl, by simp [renderedGroups, h]⟩
  · exact Or.inr ⟨rfl, by simp [renderedGroups, h]⟩

/-- Claim C10: when getAPIConfig returns absent, the APIConfig state is the
initial one: api_type ollama, empty strings for the four URL and key fields,
and no n8n fields. -/
theorem c10_absent_api_default :
    (loadSettings none none (defaultPersonalInfo "UTC", defaultApiConfig)).2 =
      defaultApiConfig ∧
    defaultApiConfig =
      { ollama_base_url := ""
        comfyui_base_url := ""
        openai_api_key := ""
        openai_base_url := ""
        api_type := ApiType.ollama
        n8n_base_url := none
        n8n_api_key := none } :=
  ⟨rfl, rfl⟩

/-- One user edit to the form state, mirroring the onChange handlers and the
api_type buttons of Settings.tsx: each spreads the previous record and
overwrites a single field. -/
inductive Edit where
  | setName (v : String)
  | setEmail (v : String)
  | setAvatarUrl (v : String)
  | setTimezone (v : String)
  | setThemePref (v : String)
  | setOllamaUrl (v : String)
  | setComfyuiUrl (v : String)
  | setOpenaiKey (v : String)
  | setOpenaiUrl (v : String)
  | setN8nUrl (v : String)
  | setN8nKey (v : String)
  | selectApiType (t : ApiType)
deriving DecidableEq

/-- Effect of one edit on the (personalInfo, apiConfig) pair. -/
def applyEdit : Edit → PersonalInfo × APIConfig → PersonalInfo × APIConfig
  | .setName v, (p, a) => ({ p with name := v }, a)
  | .setEmail v, (p, a) => ({ p with email := v }, a)
  | .setAvatarUrl v, (p, a) => ({ p with avatar_url := v }, a)
  | .setTimezone v, (p, a) => ({ p with timezone := v }, a)
  | .setThemePref v, (p, a) => ({ p with theme_preference := v }, a)
  | .setOllamaUrl v, (p, a) => (p, { a with ollama_base_url := v })
  | .setComfyuiUrl v, (p, a) => (p, { a with comfyui_base_url := v })
  | .setOpenaiKey v, (p, a) => (p, { a with openai_api_key := v })
  | .setOpenaiUrl v, (p, a) => (p, { a with openai_base_url := v })
  | .setN8nUrl v, (p, a) => (p, { a with n8n_base_url := some v })
  | .setN8nKey v, (p, a) => (p, { a with n8n_api_key := some v })
  | .selectApiType t, (p, a) => (p, setApiType t a)

/-- State after a timestamped sequence of edits, ignoring timing. -/
def applyEdits (events : List (Nat × Edit))
    (st : PersonalInfo × APIConfig) : PersonalInfo × APIConfig :=
  events.foldl (fun st ev => applyEdit ev.2 st) st

/-- State of the auto-save effect: the two records, the pending debounce
timer (deadline in ms plus the snapshot captured by the timer closure), and
the list of snapshots handed to updatePersonalInfo and updateAPIConfig so
far, in order. -/
structure DebounceState where
  personalInfo : PersonalInfo
  apiConfig : APIConfig
  pending : Option (Nat × PersonalInfo × APIConfig)
  writes : List (PersonalInfo × APIConfig)
deriving DecidableEq

/-- Processing one edit at time ev.1: a pending timer whose deadline has
already passed fired first and wrote its snapshot, otherwise clearTimeout
cancels it; then the edit is applied and the effect re-runs, scheduling a new
timer 600ms out that captures the updated records. -/
def debStep (s : DebounceState) (ev : Nat × Edit) : DebounceState :=
  let s1 :=
    match s.pending with
    | some (d, snapP, snapA) =>
        if d ≤ ev.1 then
          { s with writes := s.writes ++ [(snapP, snapA)], pending := none }
        else
          { s with pending := none }
    | none => s
  let st := applyEdit ev.2 (s1.personalInfo, s1.apiConfig)
  { s1 with
    personalInfo := st.1
    apiConfig := st.2
    pending := some (ev.1 + 600, st.1, st.2) }

/-- State right after mount (time 0): the auto-save effect runs once on the
initial render, scheduling a timer with deadline 600 that captured the
initial records. -/
def debInit (pers : PersonalInfo) (cfg : APIConfig) : DebounceState :=
  ⟨pers, cfg, some (600, pers, cfg), []⟩

/-- After the last edit the system goes quiescent, so the remaining timer
fires and writes its snapshot. -/
def debFlush (s : DebounceState) : DebounceState :=
  match s.pending with
  | some (_, snapP, snapA) =>
      { s with writes := s.writes ++ [(snapP, snapA)], pending := none }
  | none => s

/-- The whole run: mount, the timed edits in order, then quiescence. -/
def runEdits (pers : PersonalInfo) (cfg : APIConfig)
    (events : List (Nat × Edit)) : DebounceState :=
  debFlush (events.foldl debStep (debInit pers cfg))

/-- Each event arrives strictly before the deadline of the timer pending at
that moment (d is the current deadline; each edit reschedules to its own time
plus 600). This is the claim hypothesis that successive edits are separated
by less than 600ms, with the first edit arriving before the mount timer. -/
def gapsOk : Nat → List (Nat × Edit) → Bool
  | _, [] => true
  | d, (t, _) :: rest => decide (t < d) && gapsOk (t + 600) rest

theorem debounce_general (events : List (Nat × Edit)) :
    ∀ (pers : PersonalInfo) (cfg : APIConfig)
      (w : List (PersonalInfo × APIConfig)) (d : Nat),
      gapsOk d events = true →
      (debFlush (events.foldl debStep ⟨pers, cfg, some (d, pers, cfg), w⟩)).writes
        = w ++ [applyEdits events (pers, cfg)] := by
  induction events with
  | nil =>
    intro pers cfg w d _
    simp [debFlush, applyEdits]
  | cons ev rest ih =>
    intro pers cfg w d h
    rcases ev with ⟨t, e⟩
    rw [gapsOk, Bool.and_eq_true] at h
    obtain ⟨h1, h2⟩ := h
    have ht : ¬ d ≤ t := Nat.not_le.mpr (of_decide_eq_true h1)
    have hstep : debStep ⟨pers, cfg, some (d, pers, cfg), w⟩ (t, e) =
        ⟨(applyEdit e (pers, cfg)).1, (applyEdit e (pers, cfg)).2,
          some (t + 600, (applyEdit e (pers, cfg)).1,
            (applyEdit e (pers, cfg)).2), w⟩ := by
      simp [debStep, ht]
    rw [List.foldl_cons, hstep]
    have := ih (applyEdit e (pers, cfg)).1 (applyEdit e (pers, cfg)).2 w
      (t + 600) h2
    simpa [applyEdits] using this

/-- Claim C1: for a sequence of edits each arriving less than 600ms after the
previous trigger, every edit cancels the pending timer and starts a new one,
so no intermediate write occurs: exactly one snapshot, the state of both
records after the last edit, is passed to the persistence writes. -/
theorem c1_debounce_single_write (pers : PersonalInfo) (cfg : APIConfig)
    (events : List (Nat × Edit)) (h : gapsOk 600 events = true) :
    (runEdits pers cfg events).writes = [applyEdits events (pers, cfg)] := by
  have := debounce_general events pers cfg [] 600 h
  simpa [runEdits, debInit] using this

/-- A concrete burst: name set at 100ms, email at 300ms. -/
def demoEvents : List (Nat × Edit) :=
  [(100, Edit.setName "Ada"), (300, Edit.setEmail "a@b.com")]

/-- Witness for claim C1: the demo burst satisfies the gap hypothesis and
produces exactly one write, holding the final snapshot of both records. -/
theorem c1_witness :
    gapsOk 600 demoEvents = true ∧
    (runEdits (defaultPersonalInfo "UTC") defaultApiConfig demoEvents).writes =
      [({ name := "Ada"
          email := "a@b.com"
          avatar_url := ""
          timezone := "UTC"
          theme_preference := "system" }, defaultApiConfig)] := by
  refine ⟨rfl, ?_⟩
  rw [c1_debounce_single_write (defaultPersonalInfo "UTC") defaultApiConfig
    demoEvents (by rfl)]
  rfl

/-- Timer bookkeeping of the auto-save effect: nextId numbers the timers
handed out by setTimeout, live lists the timers scheduled and neither fired
nor cancelled, savedRef is the saveTimeout ref holding the last scheduled
timer id (possibly already fired or cancelled). -/
structure TimerState where
  nextId : Nat
  live : List Nat
  savedRef : Option Nat
deriving DecidableEq

/-- The clearTimeout call guarded by the ref: cancels the referenced timer if
it is still live (a no-op on a fired or already-cancelled timer). -/
def clearSaved (s : TimerState) : TimerState :=
  match s.savedRef with
  | some id => { s with live := s.live.erase id }
  | none => s

/-- The auto-save effect body: clear the timer held by the ref, then schedule
a fresh setTimeout and store its id in the ref. -/
def scheduleSave (s : TimerState) : TimerState :=
  let s1 := clearSaved s
  { s1 with
    live := s1.live ++ [s1.nextId]
    savedRef := some s1.nextId
    nextId := s1.nextId + 1 }

/-- The timer events: the effect re-running on an edit (schedule), a timer
expiring (fire), and the effect cleanup (cleanup, same clear as the body). -/
inductive TimerOp where
  | schedule
  | fire (id : Nat)
  | cleanup
deriving DecidableEq

def timerStep (s : TimerState) : TimerOp → TimerState
  | .schedule => scheduleSave s
  | .fire id => { s with live := s.live.erase id }
  | .cleanup => clearSaved s

/-- Before mount no timer exists and the ref is null. -/
def timerInit : TimerState := ⟨0, [], none⟩

def timerRun (ops : List TimerOp) : TimerState :=
  ops.foldl timerStep timerInit

/-- The timers invariant: either no save timer is live, or exactly one is and
the saveTimeout ref holds it. -/
def timerInv (s : TimerState) : Bool :=
  match s.live with
  | [] => true
  | [id] => decide (s.savedRef = some id)
  | _ => false

theorem timerStep_inv (s : TimerState) (op : TimerOp)
    (h : timerInv s = true) : timerInv (timerStep s op) = true := by
  rcases s with ⟨nid, live, ref⟩
  rcases live with _ | ⟨a, rest⟩
  · cases op with
    | schedule =>
      rcases ref with _ | r <;>
        simp [timerStep, scheduleSave, clearSaved, timerInv]
    | fire id => simp [timerStep, timerInv]
    | cleanup =>
      rcases ref with _ | r <;> simp [timerStep, clearSaved, timerInv]
  · rcases rest with _ | ⟨b, rest2⟩
    · have href : ref = some a := by
        rcases ref with _ | r
        · simp [timerInv] at h
        · simp [timerInv, decide_eq_true_eq] at h
          subst h
          rfl
      subst href
      cases op with
      | schedule =>
        simp [timerStep, scheduleSave, clearSaved, timerInv, List.erase_cons]
      | fire id =>
        rcases eq_or_ne a id with hid | hid
        · subst hid
          simp [timerStep, timerInv, List.erase_cons]
        · simp [timerStep, timerInv, List.erase_cons, hid]
      | cleanup =>
        simp [timerStep, clearSaved, timerInv, List.erase_cons]
    · simp [timerInv] at h

theorem timerRun_inv (ops : List TimerOp) : timerInv (timerRun ops) = true := by
  suffices hgen : ∀ s, timerInv s = true →
      timerInv (ops.foldl timerStep s) = true from hgen timerInit rfl
  induction ops with
  | nil => intro s h; exact h
  | cons op rest ih =>
    intro s h
    exact ih (timerStep s op) (timerStep_inv s op h)

/-- Claim C2: in every state reachable from mount by any sequence of effect
runs, timer firings and effect cleanups, at most one debounced save timer is
live: scheduling always clears the timer held by the saveTimeout ref first,
and cleanup clears it again. -/
theorem c2_at_most_one_pending (ops : List TimerOp) :
    (timerRun ops).live.length ≤ 1 := by
  have h := timerRun_inv ops
  rcases hl : (timerRun ops).live with _ | ⟨a, _ | ⟨b, rest⟩⟩
  · simp
  · simp
  · rw [timerInv, hl] at h
    simp at h

/-- The three-valued save status signal of the Settings view. -/
inductive SaveStatus where
  | idle
  | success
  | error
deriving DecidableEq

/-- The pieces of component state touched by the debounced save callback. -/
structure SaveView where
  personalInfo : PersonalInfo
  apiConfig : APIConfig
  saveStatus : SaveStatus
  isSaving : Bool
deriving DecidableEq

/-- The body of the debounced setTimeout callback: updatePersonalInfo, then
updateAPIConfig (only reached if the first write did not throw); the catch
branch sets the error status, the success branch the success status, and the
finally branch clears isSaving.  r1 and r2 are the outcomes of the two
persistence writes (r2 being the outcome updateAPIConfig would produce if
reached).  The later 2s reset of a success status back to idle is outside
this function. -/
def runSaveCallback (r1 r2 : Except String Unit) (s : SaveView) : SaveView :=
  match r1 with
  | .error _ => { s with saveStatus := SaveStatus.error, isSaving := false }
  | .ok _ =>
    match r2 with
    | .error _ => { s with saveStatus := SaveStatus.error, isSaving := false }
    | .ok _ => { s with saveStatus := SaveStatus.success, isSaving := false }

/-- Claim C7: when the debounced save runs, the in-memory records are left
unchanged in every outcome (no rollback, no retry), and the status becomes
success exactly when both writes succeed and error as soon as either write
throws. -/
theorem c7_save_outcome (r1 r2 : Except String Unit) (s : SaveView) :
    (runSaveCallback r1 r2 s).personalInfo = s.personalInfo ∧
    (runSaveCallback r1 r2 s).apiConfig = s.apiConfig ∧
    (runSaveCallback r1 r2 s).saveStatus =
      (match r1, r2 with
       | .ok _, .ok _ => SaveStatus.success
       | _, _ => SaveStatus.error) := by
  cases r1 <;> cases r2 <;> exact ⟨rfl, rfl, rfl⟩

/-- The three optional actions of the widget context menu. -/
inductive MenuAction where
  | add
  | remove
  | rearrange
deriving BEq, DecidableEq

/-- Observable calls made by the menu: one of the three bound callbacks, or
the onClose callback. -/
inductive MenuCall where
  | addCallback
  | removeCallback
  | rearrangeCallback
  | closeCall
deriving BEq, DecidableEq

/-- Props of WidgetContextMenu relevant to behaviour: whether each optional
callback is supplied, and the showRemove flag (default false). -/
structure MenuProps where
  onAddWidget : Bool
  onRemoveWidget : Bool
  onRearrangeWidgets : Bool
  showRemove : Bool
deriving DecidableEq

/-- The action buttons emitted by the JSX, in order: Add Widget when
onAddWidget is supplied, Rearrange Widgets when onRearrangeWidgets is
supplied, Remove Widget when showRemove is set and onRemoveWidget is
supplied. -/
def renderedButtons (p : MenuProps) : List MenuAction :=
  (if p.onAddWidget then [MenuAction.add] else []) ++
  (if p.onRearrangeWidgets then [MenuAction.rearrange] else []) ++
  (if p.showRemove && p.onRemoveWidget then [MenuAction.remove] else [])

def callbackOf : MenuAction → MenuCall
  | .add => MenuCall.addCallback
  | .remove => MenuCall.removeCallback
  | .rearrange => MenuCall.rearrangeCallback

/-- The document-level click listener: calls onClose unless the click target
lies inside the menu subtree (target.closest finds the context-menu class). -/
def handleClickOutside (insideMenu : Bool) : List MenuCall :=
  if insideMenu then [] else [MenuCall.closeCall]

/-- The onClick handler of an action button: stopPropagation (so the
document listener never runs), the bound callback, then onClose. -/
def actionButtonHandler (a : MenuAction) : List MenuCall :=
  [callbackOf a, MenuCall.closeCall]

/-- Where a click lands: on a rendered action button, elsewhere inside the
menu, or outside the menu subtree. -/
inductive ClickTarget where
  | actionButton (a : MenuAction)
  | insideMenu
  | outside

/-- Calls observed for one click: a click on a rendered button runs only that
button handler; any other click reaches the document listener. -/
def processClick (p : MenuProps) : ClickTarget → List MenuCall
  | .actionButton a =>
      if (renderedButtons p).contains a then actionButtonHandler a else []
  | .insideMenu => handleClickOutside true
  | .outside => handleClickOutside false

/-- Claim C8: clicking a rendered action button invokes its bound callback
exactly once and onClose exactly once; a click outside the menu subtree
invokes onClose once and no action callback. -/
theorem c8_menu_clicks (p : MenuProps) (a : MenuAction)
    (h : (renderedButtons p).contains a = true) :
    (processClick p (ClickTarget.actionButton a)).count (callbackOf a) = 1 ∧
    (processClick p (ClickTarget.actionButton a)).count MenuCall.closeCall
      = 1 ∧
    (processClick p ClickTarget.outside).count MenuCall.closeCall = 1 ∧
    ∀ b : MenuAction,
      (processClick p ClickTarget.outside).count (callbackOf b) = 0 := by
  have hpc : processClick p (ClickTarget.actionButton a) =
      [callbackOf a, MenuCall.closeCall] := by
    simp [processClick, h, actionButtonHandler]
  have hout : processClick p ClickTarget.outside = [MenuCall.closeCall] := by
    simp [processClick, handleClickOutside]
  refine ⟨?_, ?_, ?_, ?_⟩
  · rw [hpc]; cases a <;> rfl
  · rw [hpc]; cases a <;> rfl
  · rw [hout]; rfl
  · intro b; rw [hout]; cases b <;> rfl

/-- Witness for claim C8: with all callbacks supplied and showRemove set, the
Add Widget button is rendered and a click on it yields exactly the add
callback followed by the close call. -/
theorem c8_witness :
    (renderedButtons ⟨true, true, true, true⟩).contains MenuAction.add
      = true ∧
    (processClick ⟨true, true, true, true⟩
        (ClickTarget.actionButton MenuAction.add)).count
      (callbackOf MenuAction.add) = 1 :=
  ⟨by decide, (c8_menu_clicks ⟨true, true, true, true⟩ MenuAction.add
    (by decide)).1⟩

/-- Claim C9: the Remove Widget control is rendered exactly when showRemove
is set and an onRemoveWidget callback is supplied; in particular with
showRemove false it is never rendered, whatever callbacks are supplied. -/
theorem c9_show_remove (p : MenuProps) :
    (renderedButtons p).contains MenuAction.remove =
      (p.showRemove && p.onRemoveWidget) := by
  rcases p with ⟨ha, hr, hre, hs⟩
  cases ha <;> cases hr <;> cases hre <;> cases hs <;> rfl

end ClaraVerse
